import Mathlib

/-!
Shallow embedding of the cusparseLt-based sparse linear operator implemented
in aten/src/ATen/native/cuda/kernels.cpp (struct CusparseLtLinear).

Modelling conventions:
* Machine integers of the source (int64_t tensor sizes, status codes,
  compute-capability numbers) are modelled as Nat / Int.
* cudaSuccess and CUSPARSE_STATUS_SUCCESS are both status 0; any other
  status value is a failure of the wrapped call.
* Each method of CusparseLtLinear is embedded as the list of externally
  visible operations it performs, in source order (initProgram,
  pruneProgram, compressProgram, maskedMMProgram).  The interpreter runOps
  executes such a list against an environment (env : Nat -> Nat) that
  chooses the status returned by the i-th wrapped CUDA / cuSPARSELt call,
  calls being numbered in execution order.  A call takes effect (a
  cudaMalloc allocates, a cudaFree frees, the flag copy-back writes the
  host flag) exactly when it returns status 0, i.e. succeeds.
* The TORCH_CHECK-based wrappers CHECK_CUDA and CHECK_CUSPARSE are embedded
  with the polarity written in the source: TORCH_CHECK(cond, msg) raises
  exactly when cond is false, so the macro CHECK_CUDA, whose condition is
  "status != cudaSuccess", raises exactly when the wrapped call succeeds.
* sizeof(c10::Half) = sizeof(__half) = 2, sizeof(float) = 4,
  sizeof(int) = 4, sizeof(int*) = 8.
-/

/-- Matrix roles used by the cusparseLt descriptor calls in init:
the structured (weight) matrix A, the dense activation matrix B and the
dense matrix C (used for both the C and D operands of the matmul). -/
inductive MatName
  | weight
  | activation
  | matC
deriving DecidableEq, Repr

/-- Device buffers whose pointers are stored by the session (fields dA, dB,
dC, d_valid, dA_compressed of CusparseLtLinear, the bias buffer dBias of
init, and the is_valid scratch buffer local to prune). -/
inductive BufId
  | dA
  | dB
  | dC
  | dValid
  | dBias
  | isValid
  | dACompressed
deriving DecidableEq, Repr

/-- Pointer values passed to library calls: either a session-allocated
device buffer, or the caller-provided output storage (res.data_ptr, which
init stores into dD without copying). -/
inductive DevPtr
  | dev (b : BufId)
  | resOut
deriving DecidableEq, Repr

/-- Errors raised by the embedded code.  deviceError and libraryError carry
the index of the failing wrapped call (standing for the source line number
reported by the macro) and the status it returned; deviceUnsupported names
the detected compute capability as the source message does. -/
inductive PipelineError
  | deviceError (idx status : Nat)
  | libraryError (idx status : Nat)
  | deviceUnsupported (major minor : Int)
  | pruneValidationError
  | shapeMismatchError
deriving DecidableEq, Repr

/-- Argument record of the single cusparseLtMatmul invocation performed by
masked_mm (source lines 250-261). -/
structure MatmulCall where
  alpha : Int
  beta : Int
  matA : DevPtr
  matB : DevPtr
  matC_arg : DevPtr
  matD_arg : DevPtr
  workspace : Option DevPtr
  streams : Option DevPtr
  num_streams : Nat
deriving DecidableEq, Repr

/-- The cuSPARSELt library entry points invoked by the source, with the
arguments relevant to the claims. -/
inductive LtFn
  | ltInit
  | structuredDescInit (rows cols ld alignment : Nat)
  | denseDescInit (mat : MatName) (rows cols ld alignment : Nat)
  | matmulDescInit
  | algSelectionInit
  | setNumBatches (mat : MatName) (nb : Nat)
  | setBatchStride (mat : MatName) (stride : Nat)
  | setBiasPointer (bias : BufId)
  | setAlgId (alg : Nat)
  | getWorkspace
  | planInit
  | prune2 (src dst : BufId)
  | pruneCheck2 (src flagOut : BufId)
  | compressedSize2
  | compress2 (src dst : BufId)
  | matmul (call : MatmulCall)
deriving DecidableEq, Repr

/-- Externally visible operations of the embedded methods.  queryAttr,
malloc, memcpyH2D, memcpyD2H, copyFlagToHost and freeBuf are CUDA runtime
calls wrapped in CHECK_CUDA; ltCall is a cuSPARSELt call wrapped in
CHECK_CUSPARSE; torchGate is a bare TORCH_CHECK with the given condition
and error; hostFlagInit models the host-local initialisation
"int h_is_valid = 0" in prune and flagGate models the final
TORCH_CHECK(h_is_valid == 0, ...) of prune. -/
inductive DevOp
  | queryAttr (attr device : Nat)
  | malloc (b : BufId) (bytes : Nat)
  | memcpyH2D (dst : BufId) (bytes : Nat)
  | memcpyD2H (src : BufId) (bytes : Nat)
  | copyFlagToHost (src : BufId) (deviceFlag : Int)
  | freeBuf (b : BufId)
  | ltCall (fn : LtFn)
  | torchGate (cond : Bool) (e : PipelineError)
  | hostFlagInit
  | flagGate
deriving DecidableEq, Repr

/-- Embedding of the macro CHECK_CUDA (source lines 13-20): the wrapped call
returns status, and TORCH_CHECK(status != cudaSuccess, "CUDA API failed...")
raises exactly when its condition is false, i.e. exactly when status is
cudaSuccess (0).  idx identifies the call site. -/
def CHECK_CUDA (idx status : Nat) : Except PipelineError Unit :=
  if status != 0 then Except.ok () else Except.error (PipelineError.deviceError idx status)

/-- Embedding of the macro CHECK_CUSPARSE (source lines 22-30): raises
exactly when the wrapped call returns CUSPARSE_STATUS_SUCCESS (0). -/
def CHECK_CUSPARSE (idx status : Nat) : Except PipelineError Unit :=
  if status != 0 then Except.ok () else Except.error (PipelineError.libraryError idx status)

/-- Condition of the capability gate in init (source lines 73-76): the
TORCH_CHECK passes, letting init continue, exactly when its condition
"!(major == 8 && minor == 0) && !(major == 8 && minor == 6)" holds. -/
def capability_gate_passes (major_cc minor_cc : Int) : Bool :=
  !(major_cc == 8 && minor_cc == 0) && !(major_cc == 8 && minor_cc == 6)

/-- Quantities derived by init from the weight and activation shapes
(source lines 80-112). -/
structure DerivedDims where
  m : Nat
  k : Nat
  n : Nat
  batch_strideA : Nat
  batch_strideB : Nat
  batch_strideC : Nat
  num_A_rows : Nat
  num_A_cols : Nat
  num_B_rows : Nat
  num_B_cols : Nat
  num_C_rows : Nat
  num_C_cols : Nat
  alignment : Nat
  lda : Nat
  ldb : Nat
  ldc : Nat
  C_size : Nat
  A_size_bytes : Nat
  B_size_bytes : Nat
  C_size_bytes : Nat
deriving DecidableEq, Repr

/-- The constant "order == CUSPARSE_ORDER_ROW" of source lines 88 and 92:
the storage order is fixed to row-major. -/
def is_rowmajor : Bool := true

/-- Dimension, leading-dimension and batch-stride derivation of init
(source lines 80-112), as a function of weight.size(0), weight.size(1),
activation.size(0), the two transpose flags and num_batches.  Note the
source reads n from activation.size(0) and never reads activation.size(1). -/
def deriveDims (w0 w1 a0 : Nat) (isA_transposed isB_transposed : Bool)
    (num_batches : Nat) : DerivedDims :=
  let m := w0
  let k := w1
  let n := a0
  let batch_strideA := m * k
  let batch_strideB := k * n
  let batch_strideC := m * n
  let num_A_rows := if isA_transposed then k else m
  let num_A_cols := if isA_transposed then m else k
  let num_B_rows := if isB_transposed then n else k
  let num_B_cols := if isB_transposed then k else n
  let num_C_rows := m
  let num_C_cols := n
  let lda := if is_rowmajor then num_A_cols else num_A_rows
  let ldb := if is_rowmajor then num_B_cols else num_B_rows
  let ldc := if is_rowmajor then num_C_cols else num_C_rows
  { m := m, k := k, n := n
    batch_strideA := batch_strideA
    batch_strideB := batch_strideB
    batch_strideC := batch_strideC
    num_A_rows := num_A_rows, num_A_cols := num_A_cols
    num_B_rows := num_B_rows, num_B_cols := num_B_cols
    num_C_rows := num_C_rows, num_C_cols := num_C_cols
    alignment := 16
    lda := lda, ldb := ldb, ldc := ldc
    C_size := num_batches * batch_strideC
    A_size_bytes := num_batches * batch_strideA * 2
    B_size_bytes := num_batches * batch_strideB * 2
    C_size_bytes := num_batches * batch_strideC * 2 }

/-- Session state fixed at construction: the weight shape, the batch count
and the two operation flags (both constructors set the flags to
CUSPARSE_OPERATION_NON_TRANSPOSE, modelled as false). -/
structure Session where
  weight0 : Nat
  weight1 : Nat
  num_batches : Nat
  op_weight_transposed : Bool
  op_activation_transposed : Bool
deriving DecidableEq, Repr

/-- The two-argument constructor CusparseLtLinear(weight, num_batches)
(source lines 50-54): stores the weight shape and batch count and fixes
both operations to non-transpose. -/
def mkCusparseLtLinear (w0 w1 nb : Nat) : Session :=
  { weight0 := w0, weight1 := w1, num_batches := nb
    op_weight_transposed := false
    op_activation_transposed := false }

/-- The cusparseLtMatmul argument record built by masked_mm (source lines
243-261): alpha = 1.0f, beta = 0.0f, operands dA_compressed, dB, dC (the
device buffer allocated in init) as the C operand and dD (the alias of the
caller-provided output storage, set in init line 129) as the D operand,
null workspace, null stream array, zero streams. -/
def masked_mm_call : MatmulCall :=
  { alpha := 1, beta := 0
    matA := DevPtr.dev BufId.dACompressed
    matB := DevPtr.dev BufId.dB
    matC_arg := DevPtr.dev BufId.dC
    matD_arg := DevPtr.resOut
    workspace := none
    streams := none
    num_streams := 0 }

/-- Operation sequence of CusparseLtLinear::init (source lines 66-204), in
source order.  gpu_index is the first argument of init; the source never
reads it and queries the compute capability of device 0.  act0 and act1 are
activation.size(0) and activation.size(1); the source reads only act0.
major and minor are the compute-capability values the device reports. -/
def initProgram (s : Session) (gpu_index : Int) (act0 act1 : Nat)
    (major minor : Int) : List DevOp :=
  let d := deriveDims s.weight0 s.weight1 act0
             s.op_weight_transposed s.op_activation_transposed s.num_batches
  [ DevOp.queryAttr 75 0,
    DevOp.queryAttr 76 0,
    DevOp.torchGate (capability_gate_passes major minor)
      (PipelineError.deviceUnsupported major minor),
    DevOp.malloc BufId.dA d.A_size_bytes,
    DevOp.malloc BufId.dB d.B_size_bytes,
    DevOp.malloc BufId.dC d.C_size_bytes,
    DevOp.malloc BufId.dValid 8,
    DevOp.memcpyH2D BufId.dA d.A_size_bytes,
    DevOp.memcpyH2D BufId.dB d.B_size_bytes,
    DevOp.memcpyH2D BufId.dC d.C_size_bytes,
    DevOp.ltCall LtFn.ltInit,
    DevOp.ltCall (LtFn.structuredDescInit d.num_A_rows d.num_A_cols d.lda d.alignment),
    DevOp.ltCall (LtFn.denseDescInit MatName.activation d.num_B_rows d.num_B_cols d.ldb d.alignment),
    DevOp.ltCall (LtFn.denseDescInit MatName.matC d.num_C_rows d.num_C_cols d.ldc d.alignment),
    DevOp.ltCall LtFn.matmulDescInit,
    DevOp.ltCall LtFn.algSelectionInit,
    DevOp.ltCall (LtFn.setNumBatches MatName.weight s.num_batches),
    DevOp.ltCall (LtFn.setNumBatches MatName.activation s.num_batches),
    DevOp.ltCall (LtFn.setNumBatches MatName.matC s.num_batches),
    DevOp.ltCall (LtFn.setBatchStride MatName.weight d.batch_strideA),
    DevOp.ltCall (LtFn.setBatchStride MatName.activation d.batch_strideB),
    DevOp.ltCall (LtFn.setBatchStride MatName.matC d.batch_strideC),
    DevOp.ltCall LtFn.matmulDescInit,
    DevOp.malloc BufId.dBias (s.weight0 * 4),
    DevOp.memcpyH2D BufId.dBias (s.weight0 * 4),
    DevOp.ltCall (LtFn.setBiasPointer BufId.dBias),
    DevOp.ltCall (LtFn.setAlgId 0),
    DevOp.ltCall LtFn.getWorkspace,
    DevOp.ltCall LtFn.planInit ]

/-- Operation sequence of CusparseLtLinear::prune (source lines 207-225):
the in-place strip pruning of dA, allocation of the is_valid scratch flag,
the prune check writing the flag to device memory, the host-local flag
initialisation, the copy-back of the flag, the free of the scratch buffer,
and the final TORCH_CHECK on the copied-back flag.  deviceFlag is the value
the prune check writes into device memory. -/
def pruneProgram (deviceFlag : Int) : List DevOp :=
  [ DevOp.ltCall (LtFn.prune2 BufId.dA BufId.dA),
    DevOp.malloc BufId.isValid 4,
    DevOp.ltCall (LtFn.pruneCheck2 BufId.dA BufId.isValid),
    DevOp.hostFlagInit,
    DevOp.copyFlagToHost BufId.isValid deviceFlag,
    DevOp.freeBuf BufId.isValid,
    DevOp.flagGate ]

/-- Operation sequence of CusparseLtLinear::compress (source lines 227-237).
compressed_size is the byte count the library reports. -/
def compressProgram (compressed_size : Nat) : List DevOp :=
  [ DevOp.ltCall LtFn.compressedSize2,
    DevOp.malloc BufId.dACompressed compressed_size,
    DevOp.ltCall (LtFn.compress2 BufId.dA BufId.dACompressed) ]

/-- Operation sequence of CusparseLtLinear::masked_mm (source lines
240-262): the single cusparseLtMatmul call. -/
def maskedMMProgram : List DevOp :=
  [ DevOp.ltCall (LtFn.matmul masked_mm_call) ]

/-- Operation sequence of session teardown.  The struct CusparseLtLinear
declares no destructor, and the source contains no cudaFree of dA, dB, dC,
d_valid, dBias or dA_compressed, no descriptor or plan destroy call and no
cusparseLtDestroy: destroying the object performs no device or library
operation at all. -/
def destructorProgram : List DevOp := []

/-- Full operation sequence of a session that is constructed, initialised,
pruned, compressed, executed and destroyed. -/
def sessionProgram (s : Session) (gpu_index : Int) (act0 act1 : Nat)
    (major minor : Int) (deviceFlag : Int) (compressed_size : Nat) : List DevOp :=
  initProgram s gpu_index act0 act1 major minor ++ pruneProgram deviceFlag ++
    compressProgram compressed_size ++ maskedMMProgram ++ destructorProgram

/-- Interpreter state: the set of live device allocations, the operations
executed so far, the index of the next wrapped external call, and the value
of the host-local variable h_is_valid of prune. -/
structure DevState where
  live : List BufId
  trace : List DevOp
  nextIdx : Nat
  hIsValid : Int
deriving DecidableEq, Repr

/-- State of a freshly constructed session, before any method call. -/
def initialState : DevState :=
  { live := [], trace := [], nextIdx := 0, hIsValid := 0 }

/-- Turns the outcome of a check macro into an optional error. -/
def errOf : Except PipelineError Unit → Option PipelineError
  | Except.ok _ => none
  | Except.error e => some e

/-- Executes one operation: the wrapped call consumes the next status from
env, takes effect exactly when that status is 0 (the call succeeded), and
then its CHECK macro decides whether to raise.  Gates raise according to
their condition.  Every reached operation is recorded in the trace. -/
def stepOp (env : Nat → Nat) (st : DevState) (op : DevOp) :
    DevState × Option PipelineError :=
  let st' : DevState := { st with trace := st.trace ++ [op] }
  match op with
  | DevOp.torchGate cond e => (st', if cond then none else some e)
  | DevOp.hostFlagInit => ({ st' with hIsValid := 0 }, none)
  | DevOp.flagGate =>
      (st', if st.hIsValid == 0 then none else some PipelineError.pruneValidationError)
  | DevOp.queryAttr _ _ =>
      ({ st' with nextIdx := st.nextIdx + 1 },
       errOf (CHECK_CUDA st.nextIdx (env st.nextIdx)))
  | DevOp.malloc b _ =>
      let s := env st.nextIdx
      (if s = 0 then { st' with nextIdx := st.nextIdx + 1, live := b :: st.live }
       else { st' with nextIdx := st.nextIdx + 1 },
       errOf (CHECK_CUDA st.nextIdx s))
  | DevOp.memcpyH2D _ _ =>
      ({ st' with nextIdx := st.nextIdx + 1 },
       errOf (CHECK_CUDA st.nextIdx (env st.nextIdx)))
  | DevOp.memcpyD2H _ _ =>
      ({ st' with nextIdx := st.nextIdx + 1 },
       errOf (CHECK_CUDA st.nextIdx (env st.nextIdx)))
  | DevOp.copyFlagToHost _ deviceFlag =>
      let s := env st.nextIdx
      (if s = 0 then { st' with nextIdx := st.nextIdx + 1, hIsValid := deviceFlag }
       else { st' with nextIdx := st.nextIdx + 1 },
       errOf (CHECK_CUDA st.nextIdx s))
  | DevOp.freeBuf b =>
      let s := env st.nextIdx
      (if s = 0 then { st' with nextIdx := st.nextIdx + 1,
                                live := st.live.filter (fun x => x != b) }
       else { st' with nextIdx := st.nextIdx + 1 },
       errOf (CHECK_CUDA st.nextIdx s))
  | DevOp.ltCall _ =>
      ({ st' with nextIdx := st.nextIdx + 1 },
       errOf (CHECK_CUSPARSE st.nextIdx (env st.nextIdx)))

/-- Executes a list of operations in order, stopping at the first raised
error and returning the state reached together with the error, if any. -/
def runOps (env : Nat → Nat) : DevState → List DevOp → DevState × Option PipelineError
  | st, [] => (st, none)
  | st, op :: rest =>
      match stepOp env st op with
      | (st', none) => runOps env st' rest
      | (st', some e) => (st', some e)

/-- Environment in which every wrapped call returns status 1, a failure:
under the macro polarity written in the source this is the environment in
which every check passes and execution runs to completion. -/
def envAllFail : Nat → Nat := fun _ => 1

/-- Environment in which every wrapped call returns status 0, a success:
under the macro polarity written in the source the very first wrapped call
then raises. -/
def envAllSuccess : Nat → Nat := fun _ => 0

/-- Environment in which exactly the j-th wrapped call succeeds and every
other wrapped call fails. -/
def envSuccessAt (j : Nat) : Nat → Nat := fun i => if i = j then 0 else 1

/-- True of the operations the capability gate must precede: device buffer
allocations and descriptor-creating library calls. -/
def allocOrDesc : DevOp → Bool
  | DevOp.malloc _ _ => true
  | DevOp.ltCall (LtFn.structuredDescInit _ _ _ _) => true
  | DevOp.ltCall (LtFn.denseDescInit _ _ _ _ _) => true
  | DevOp.ltCall LtFn.matmulDescInit => true
  | _ => false

/-- True when the operation is not a TORCH_CHECK gate carrying
shapeMismatchError. -/
def shapeFreeOp : DevOp → Bool
  | DevOp.torchGate _ e => !(e == PipelineError.shapeMismatchError)
  | _ => true

/-- True of every operation except a compute-capability query against a
device other than device 0. -/
def queriesDeviceZero : DevOp → Bool
  | DevOp.queryAttr _ device => device == 0
  | _ => true

/-- Helper: a CHECK_CUDA outcome is either no error or the device error of
that call site. -/
theorem errOf_CHECK_CUDA (idx s : Nat) :
    errOf (CHECK_CUDA idx s) = none ∨
      errOf (CHECK_CUDA idx s) = some (PipelineError.deviceError idx s) := by
  by_cases h : s = 0 <;> simp [CHECK_CUDA, errOf, h]

/-- Helper: a CHECK_CUSPARSE outcome is either no error or the library
error of that call site. -/
theorem errOf_CHECK_CUSPARSE (idx s : Nat) :
    errOf (CHECK_CUSPARSE idx s) = none ∨
      errOf (CHECK_CUSPARSE idx s) = some (PipelineError.libraryError idx s) := by
  by_cases h : s = 0 <;> simp [CHECK_CUSPARSE, errOf, h]

/-- Helper: a step of an operation that is not a shape-mismatch gate never
raises shapeMismatchError. -/
theorem stepOp_snd_no_shape (env : Nat → Nat) (st : DevState) (op : DevOp)
    (h : shapeFreeOp op = true) :
    (stepOp env st op).2 ≠ some PipelineError.shapeMismatchError := by
  cases op with
  | torchGate cond e =>
      simp only [shapeFreeOp, Bool.not_eq_true'] at h
      cases cond <;> simp [stepOp]
      intro hc
      rw [hc] at h
      simp at h
  | queryAttr a d =>
      rcases errOf_CHECK_CUDA st.nextIdx (env st.nextIdx) with h' | h' <;>
        simp [stepOp, h']
  | malloc b n =>
      rcases errOf_CHECK_CUDA st.nextIdx (env st.nextIdx) with h' | h' <;>
        simp [stepOp, h']
  | memcpyH2D b n =>
      rcases errOf_CHECK_CUDA st.nextIdx (env st.nextIdx) with h' | h' <;>
        simp [stepOp, h']
  | memcpyD2H b n =>
      rcases errOf_CHECK_CUDA st.nextIdx (env st.nextIdx) with h' | h' <;>
        simp [stepOp, h']
  | copyFlagToHost b f =>
      rcases errOf_CHECK_CUDA st.nextIdx (env st.nextIdx) with h' | h' <;>
        simp [stepOp, h']
  | freeBuf b =>
      rcases errOf_CHECK_CUDA st.nextIdx (env st.nextIdx) with h' | h' <;>
        simp [stepOp, h']
  | ltCall fn =>
      rcases errOf_CHECK_CUSPARSE st.nextIdx (env st.nextIdx) with h' | h' <;>
        simp [stepOp, h']
  | hostFlagInit => simp [stepOp]
  | flagGate =>
      cases hg : (st.hIsValid == 0) <;> simp [stepOp, hg]

/-- Helper: running a list of operations none of which is a shape-mismatch
gate never raises shapeMismatchError. -/
theorem runOps_no_shape (env : Nat → Nat) :
    ∀ (ops : List DevOp) (st : DevState), ops.all shapeFreeOp = true →
      (runOps env st ops).2 ≠ some PipelineError.shapeMismatchError := by
  intro ops
  induction ops with
  | nil => intro st _; simp [runOps]
  | cons op rest ih =>
      intro st h
      rw [List.all_cons, Bool.and_eq_true] at h
      have hop := stepOp_snd_no_shape env st op h.1
      rcases heq : stepOp env st op with ⟨st', e⟩
      rw [heq] at hop
      simp only [runOps, heq]
      cases e with
      | none => exact ih st' h.2
      | some err => simpa using hop

/-- Helper: a step records the executed operation at the end of the trace,
whatever its outcome. -/
theorem stepOp_trace_eq (env : Nat → Nat) (st : DevState) (op : DevOp) :
    (stepOp env st op).1.trace = st.trace ++ [op] := by
  cases op <;> first
    | rfl
    | (simp only [stepOp]; split <;> rfl)

/-- Helper: a run only ever appends to the trace. -/
theorem runOps_trace_extends (env : Nat → Nat) :
    ∀ (ops : List DevOp) (st : DevState),
      ∃ t, (runOps env st ops).1.trace = st.trace ++ t := by
  intro ops
  induction ops with
  | nil => intro st; exact ⟨[], by simp [runOps]⟩
  | cons op rest ih =>
      intro st
      have htr0 := stepOp_trace_eq env st op
      rcases heq : stepOp env st op with ⟨st', e⟩
      rw [heq] at htr0
      cases e with
      | none =>
          obtain ⟨t, ht⟩ := ih st'
          refine ⟨[op] ++ t, ?_⟩
          simp only [runOps, heq]
          rw [ht, htr0, List.append_assoc]
      | some err =>
          refine ⟨[op], ?_⟩
          simp only [runOps, heq]
          exact htr0

/-- C1 (code bug): the capability gate of init is inverted.  Its TORCH_CHECK
condition is the conjunction of the two negations, so the gate passes
exactly on capabilities OUTSIDE the allowlisted pairs 8.0 and 8.6 and
raises the DeviceUnsupported error, which names the detected capability,
exactly ON 8.0 and 8.6 - the opposite of the claim and of the error
message's own text.  Concretely: the gate rejects 8.0 and 8.6, accepts
7.5, and a full init run on a device reporting 8.0 stops at the gate with
deviceUnsupported 8 0 while a run on 7.5 passes the gate. -/
theorem capability_gate_inverted :
    capability_gate_passes 8 0 = false ∧
    capability_gate_passes 8 6 = false ∧
    capability_gate_passes 7 5 = true ∧
    (∀ ma mi : Int, capability_gate_passes ma mi = true ↔
        ¬ ((ma = 8 ∧ mi = 0) ∨ (ma = 8 ∧ mi = 6))) ∧
    (runOps envAllFail initialState
        (initProgram (mkCusparseLtLinear 128 256 1) 0 256 64 8 0)).2 =
      some (PipelineError.deviceUnsupported 8 0) ∧
    (runOps envAllFail initialState
        (initProgram (mkCusparseLtLinear 128 256 1) 0 256 64 7 5)).2 = none := by
  refine ⟨rfl, rfl, rfl, ?_, rfl, rfl⟩
  intro ma mi
  simp [capability_gate_passes, not_or]
  tauto

/-- C2 (code bug): the shared error-check wrappers are inverted.  CHECK_CUDA
and CHECK_CUSPARSE assert "status != success" with TORCH_CHECK, which
raises when its condition is false: so the wrappers raise a typed error
exactly when the wrapped call returns the SUCCESS status 0, and silently
accept every non-success status - the opposite of the claim and of the
macros' own "API failed" messages. -/
theorem check_wrappers_inverted :
    CHECK_CUDA 16 0 = Except.error (PipelineError.deviceError 16 0) ∧
    CHECK_CUDA 16 1 = Except.ok () ∧
    CHECK_CUSPARSE 25 0 = Except.error (PipelineError.libraryError 25 0) ∧
    CHECK_CUSPARSE 25 7 = Except.ok () ∧
    (∀ status : Nat, CHECK_CUDA 16 status = Except.ok () ↔ status ≠ 0) ∧
    (∀ status : Nat, CHECK_CUSPARSE 25 status = Except.ok () ↔ status ≠ 0) := by
  refine ⟨rfl, rfl, rfl, rfl, ?_, ?_⟩ <;>
    intro status <;> by_cases h : status = 0 <;>
    simp [CHECK_CUDA, CHECK_CUSPARSE, h]

/-- C4: init derives the matrix dimensions as the claim states: with the
transpose flags both false the weight is m x k, the activation k x n and
the output m x n (with m, k read from the weight shape and n from the
activation); for every setting of the transpose flags the leading dimension
of each matrix is its column count (the storage order is row-major) and the
batch stride of each matrix equals its row count times its column count. -/
theorem init_dims_correct :
    ∀ (w0 w1 a0 nb : Nat) (tA tB : Bool),
      ((deriveDims w0 w1 a0 false false nb).num_A_rows = w0 ∧
       (deriveDims w0 w1 a0 false false nb).num_A_cols = w1 ∧
       (deriveDims w0 w1 a0 false false nb).num_B_rows = w1 ∧
       (deriveDims w0 w1 a0 false false nb).num_B_cols = a0 ∧
       (deriveDims w0 w1 a0 false false nb).num_C_rows = w0 ∧
       (deriveDims w0 w1 a0 false false nb).num_C_cols = a0) ∧
      (deriveDims w0 w1 a0 tA tB nb).lda = (deriveDims w0 w1 a0 tA tB nb).num_A_cols ∧
      (deriveDims w0 w1 a0 tA tB nb).ldb = (deriveDims w0 w1 a0 tA tB nb).num_B_cols ∧
      (deriveDims w0 w1 a0 tA tB nb).ldc = (deriveDims w0 w1 a0 tA tB nb).num_C_cols ∧
      (deriveDims w0 w1 a0 tA tB nb).batch_strideA =
        (deriveDims w0 w1 a0 tA tB nb).num_A_rows *
          (deriveDims w0 w1 a0 tA tB nb).num_A_cols ∧
      (deriveDims w0 w1 a0 tA tB nb).batch_strideB =
        (deriveDims w0 w1 a0 tA tB nb).num_B_rows *
          (deriveDims w0 w1 a0 tA tB nb).num_B_cols ∧
      (deriveDims w0 w1 a0 tA tB nb).batch_strideC =
        (deriveDims w0 w1 a0 tA tB nb).num_C_rows *
          (deriveDims w0 w1 a0 tA tB nb).num_C_cols := by
  intro w0 w1 a0 nb tA tB
  cases tA <;> cases tB <;>
    simp [deriveDims, is_rowmajor, Nat.mul_comm]

/-- C5 (counterexample): masked_mm does NOT pass one single buffer as both
the prior-output operand and the destination operand: the C operand it
passes is the device buffer dC allocated by init, which is distinct from
the destination operand dD, the alias of the caller-provided output
storage. -/
theorem masked_mm_distinct_buffers :
    masked_mm_call.matC_arg ≠ masked_mm_call.matD_arg ∧
    masked_mm_call.matC_arg ≠ DevPtr.resOut := by
  decide

/-- C5 (amended): masked_mm invokes the matmul with multiply-scale 1 and
accumulate-scale 0, a null workspace pointer, a null stream array and zero
streams, passing the compressed weight and activation buffers, the
init-allocated device buffer dC as the prior-output operand and the alias
of the caller-provided output storage as the distinct destination
operand. -/
theorem masked_mm_call_fields :
    masked_mm_call.alpha = 1 ∧
    masked_mm_call.beta = 0 ∧
    masked_mm_call.workspace = none ∧
    masked_mm_call.streams = none ∧
    masked_mm_call.num_streams = 0 ∧
    masked_mm_call.matA = DevPtr.dev BufId.dACompressed ∧
    masked_mm_call.matB = DevPtr.dev BufId.dB ∧
    masked_mm_call.matC_arg = DevPtr.dev BufId.dC ∧
    masked_mm_call.matD_arg = DevPtr.resOut ∧
    maskedMMProgram = [DevOp.ltCall (LtFn.matmul masked_mm_call)] := by
  decide

/-- C3 (counterexample): init performs no shape check.  With a 128 x 256
weight (k = 256) and an activation whose dimension 0 is 999, different from
k, init raises no error at all when every check passes - in particular it
never raises ShapeMismatchError - and its run reaches the device buffer
allocations (the cudaMalloc of dA is in the executed trace). -/
theorem init_no_shape_check_cex :
    (runOps envAllFail initialState
        (initProgram (mkCusparseLtLinear 128 256 1) 0 999 64 7 5)).2 = none ∧
    DevOp.malloc BufId.dA 65536 ∈
      (runOps envAllFail initialState
          (initProgram (mkCusparseLtLinear 128 256 1) 0 999 64 7 5)).1.trace := by
  exact ⟨rfl, by decide⟩

/-- C3 (amended): init contains no shape-consistency check at all.  Its
behaviour is identical for every value of activation.size(1) (the inner
dimension under the row-major k x n reading is never read), and no
execution of init, for any shapes and any statuses of the wrapped calls,
raises ShapeMismatchError. -/
theorem init_never_shape_mismatch :
    ∀ (s : Session) (gi : Int) (a0 a1 b1 : Nat) (ma mi : Int) (env : Nat → Nat),
      initProgram s gi a0 a1 ma mi = initProgram s gi a0 b1 ma mi ∧
      (runOps env initialState (initProgram s gi a0 a1 ma mi)).2 ≠
        some PipelineError.shapeMismatchError := by
  intro s gi a0 a1 b1 ma mi env
  exact ⟨rfl, runOps_no_shape env _ _ rfl⟩

/-- C6 (counterexample): a session whose init allocates dA (the cudaMalloc
of dA succeeds; the inverted check then aborts init) and is then destroyed
still holds dA: teardown freed nothing, so a buffer allocated during init
leaks. -/
theorem teardown_leak_cex :
    (runOps (envSuccessAt 2) initialState
        (initProgram (mkCusparseLtLinear 2 4 1) 0 4 4 7 5 ++ destructorProgram)).1.live
      = [BufId.dA] := by
  rfl

/-- C6 (amended): the struct declares no destructor, so session teardown
performs no operation: it releases neither the library handle nor any
descriptor, plan or device buffer, leaves any state unchanged, and every
device buffer live at the end of init is still live after the session is
destroyed. -/
theorem teardown_frees_nothing :
    ∀ (env : Nat → Nat) (st : DevState) (s : Session) (gi : Int) (a0 a1 : Nat)
      (ma mi : Int),
      runOps env st destructorProgram = (st, none) ∧
      runOps env initialState (initProgram s gi a0 a1 ma mi ++ destructorProgram) =
        runOps env initialState (initProgram s gi a0 a1 ma mi) := by
  intro env st s gi a0 a1 ma mi
  exact ⟨rfl, by simp [destructorProgram]⟩

/-- C10: init never reads its gpu_index argument - the operation sequence
it performs is the same for every pair of gpu_index values - and each of
its compute-capability queries is issued against device 0. -/
theorem init_ignores_gpu_index :
    ∀ (s : Session) (g1 g2 : Int) (a0 a1 : Nat) (ma mi : Int),
      initProgram s g1 a0 a1 ma mi = initProgram s g2 a0 a1 ma mi ∧
      (initProgram s g1 a0 a1 ma mi).all queriesDeviceZero = true := by
  intro s g1 g2 a0 a1 ma mi
  exact ⟨rfl, rfl⟩

/-- C7 (code bug): prune's validity gate itself is correctly oriented (it
raises exactly on a nonzero host flag), but the inverted check wrappers
make it unreachable with a nonzero flag: a successful copy-back of the
flag itself raises first, so prune can NEVER raise pruneValidationError -
for every environment and every device flag value - and on a healthy
device, where every wrapped call succeeds, prune stops at its very first
wrapped call with a library error even though the flag is zero. -/
theorem prune_validation_unreachable :
    (runOps envAllSuccess initialState (pruneProgram 0)).2 =
      some (PipelineError.libraryError 0 0) ∧
    ∀ (env : Nat → Nat) (flag : Int) (st : DevState),
      (runOps env st (pruneProgram flag)).2 ≠
        some PipelineError.pruneValidationError := by
  refine ⟨rfl, ?_⟩
  intro env flag st
  obtain ⟨live, tr, idx, hv⟩ := st
  by_cases h0 : env idx = 0 <;>
    by_cases h1 : env (idx + 1) = 0 <;>
      by_cases h2 : env (idx + 1 + 1) = 0 <;>
        by_cases h3 : env (idx + 1 + 1 + 1) = 0 <;>
          by_cases h4 : env (idx + 1 + 1 + 1 + 1) = 0 <;>
            simp [pruneProgram, runOps, stepOp, errOf, CHECK_CUDA, CHECK_CUSPARSE,
              h0, h1, h2, h3, h4]

/-- Helper: running a program of at least three operations leaves a trace
that is the first executed operation, the first two, or the first three
followed by some suffix. -/
theorem run_first_three_trace (env : Nat → Nat) (st : DevState) (q1 q2 g : DevOp)
    (rest : List DevOp) :
    (runOps env st (q1 :: q2 :: g :: rest)).1.trace = st.trace ++ [q1] ∨
    (runOps env st (q1 :: q2 :: g :: rest)).1.trace = st.trace ++ [q1, q2] ∨
    ∃ t, (runOps env st (q1 :: q2 :: g :: rest)).1.trace =
      st.trace ++ [q1, q2, g] ++ t := by
  have h1 := stepOp_trace_eq env st q1
  rcases heq1 : stepOp env st q1 with ⟨s1, e1⟩
  rw [heq1] at h1
  cases e1 with
  | some e =>
      left
      simp only [runOps, heq1]
      exact h1
  | none =>
      have h2 := stepOp_trace_eq env s1 q2
      rcases heq2 : stepOp env s1 q2 with ⟨s2, e2⟩
      rw [heq2] at h2
      cases e2 with
      | some e =>
          right; left
          simp only [runOps, heq1, heq2]
          rw [h2, h1]
          simp
      | none =>
          have h3 := stepOp_trace_eq env s2 g
          rcases heq3 : stepOp env s2 g with ⟨s3, e3⟩
          rw [heq3] at h3
          cases e3 with
          | some e =>
              right; right
              refine ⟨[], ?_⟩
              simp only [runOps, heq1, heq2, heq3]
              rw [h3, h2, h1]
              simp
          | none =>
              right; right
              obtain ⟨t, ht⟩ := runOps_trace_extends env rest s3
              refine ⟨t, ?_⟩
              simp only [runOps, heq1, heq2, heq3]
              rw [ht, h3, h2, h1]
              simp

/-- C8: in init the capability check comes before every device buffer
allocation and every descriptor-creating library call: the first three
operations of init are the two capability queries followed by the
capability gate, none of which allocates or creates a descriptor, and on
every execution path (every environment) an executed allocation or
descriptor operation implies the capability gate was executed, earlier in
the trace. -/
theorem capability_check_first :
    ∀ (s : Session) (gi : Int) (a0 a1 : Nat) (ma mi : Int) (env : Nat → Nat),
      (initProgram s gi a0 a1 ma mi).take 3 =
        [DevOp.queryAttr 75 0, DevOp.queryAttr 76 0,
         DevOp.torchGate (capability_gate_passes ma mi)
           (PipelineError.deviceUnsupported ma mi)] ∧
      ((initProgram s gi a0 a1 ma mi).take 3).all (fun op => !allocOrDesc op) = true ∧
      ∀ op ∈ (runOps env initialState (initProgram s gi a0 a1 ma mi)).1.trace,
        allocOrDesc op = true →
        DevOp.torchGate (capability_gate_passes ma mi)
            (PipelineError.deviceUnsupported ma mi)
          ∈ (runOps env initialState (initProgram s gi a0 a1 ma mi)).1.trace := by
  intro s gi a0 a1 ma mi env
  refine ⟨rfl, rfl, ?_⟩
  have hP : initProgram s gi a0 a1 ma mi =
      DevOp.queryAttr 75 0 :: DevOp.queryAttr 76 0 ::
      DevOp.torchGate (capability_gate_passes ma mi)
        (PipelineError.deviceUnsupported ma mi) ::
      (initProgram s gi a0 a1 ma mi).drop 3 := rfl
  rw [hP]
  rcases run_first_three_trace env initialState (DevOp.queryAttr 75 0)
      (DevOp.queryAttr 76 0)
      (DevOp.torchGate (capability_gate_passes ma mi)
        (PipelineError.deviceUnsupported ma mi))
      ((initProgram s gi a0 a1 ma mi).drop 3) with h | h | h
  · intro op hop halloc
    rw [h] at hop
    simp only [initialState, List.nil_append, List.mem_singleton] at hop
    rw [hop] at halloc
    simp [allocOrDesc] at halloc
  · intro op hop halloc
    rw [h] at hop
    simp only [initialState, List.nil_append, List.mem_cons,
      List.not_mem_nil, or_false] at hop
    rcases hop with hop | hop <;> rw [hop] at halloc <;> simp [allocOrDesc] at halloc
  · obtain ⟨t, ht⟩ := h
    intro op hop halloc
    rw [ht]
    simp [initialState]

/-- C8 (witness): a concrete execution of init on a 2 x 4 weight with
capability 7.5, in which every check passes: the run executes the
cudaMalloc of dA, and the theorem yields that the capability gate is in
the executed trace. -/
theorem capability_check_first_witness :
    DevOp.torchGate (capability_gate_passes 7 5) (PipelineError.deviceUnsupported 7 5)
      ∈ (runOps envAllFail initialState
          (initProgram (mkCusparseLtLinear 2 4 1) 0 4 4 7 5)).1.trace :=
  (capability_check_first (mkCusparseLtLinear 2 4 1) 0 4 4 7 5 envAllFail).2.2
    (DevOp.malloc BufId.dA 16) (by decide) (by decide)

/-- C9 (counterexample): a session whose init allocates the validity-flag
buffer d_valid (the cudaMalloc of d_valid succeeds; the inverted check then
aborts init) and on which prune is then run to completion - every
prune-side check passes and the validity gate reports valid - still holds
d_valid live after prune returns: a validity-flag allocation of the
session outlives prune. -/
theorem d_valid_leak_cex :
    (runOps envAllFail
        (runOps (envSuccessAt 5) initialState
            (initProgram (mkCusparseLtLinear 2 4 1) 0 4 4 7 5)).1
        (pruneProgram 0)).2 = none ∧
    (runOps envAllFail
        (runOps (envSuccessAt 5) initialState
            (initProgram (mkCusparseLtLinear 2 4 1) 0 4 4 7 5)).1
        (pruneProgram 0)).1.live = [BufId.dValid] := by
  exact ⟨rfl, rfl⟩

/-- C9 (amended): prune frees its local is_valid scratch buffer before the
validity-outcome gate, so the free is attempted regardless of the check's
outcome; but the validity-flag buffer d_valid allocated during init is
never freed by any operation the session ever performs - init, prune,
compress, masked_mm and teardown included - so it outlives prune. -/
theorem validity_flag_buffers :
    ∀ (s : Session) (gi : Int) (a0 a1 : Nat) (ma mi flag : Int) (csize : Nat),
      (pruneProgram flag)[5]? = some (DevOp.freeBuf BufId.isValid) ∧
      (pruneProgram flag)[6]? = some DevOp.flagGate ∧
      (sessionProgram s gi a0 a1 ma mi flag csize).all
          (fun op => !(op == DevOp.freeBuf BufId.dValid)) = true := by
  intro s gi a0 a1 ma mi flag csize
  exact ⟨rfl, rfl, rfl⟩
